import Mathlib

/-!
ProjectRomero: the Raspberry Pi gateway application (`acm::Application`)

A shallow embedding of the callbacks of
`src/RaspberryPi/acm-rpi-app/src/AcmApplication.cpp`:

* `bleOnDataReceived`  : decoder of the one-byte operator command,
* `canOnTimeToSend`    : the direction/speed multiplexer run on a timer,
* `canOnDataReceived`  : decoder of the CAN telemetry frames and builder of
                         the two-byte BLE notification,
* `autonomousControl`  : the obstacle / road governor that owns
                         `autonomousLocked`.

The two shared records `m_carParamOut` and `m_carParamIn` are passed
explicitly; the function-local statics (`stopPrev`, `i`) are explicit
arguments and results.  Time logging and the transport calls themselves are
left out: a sent CAN message or BLE notification is returned as a value.
-/

namespace acm

/-! ## Constants and records declared in the headers -/

/-- Modelled from the spec: the constant `ACM_MODE_MANUAL` of `common-defs.h`,
which is not among the sources.  The spec gives `mode=Manual(0)`, and
`bleOnDataReceived` stores `false` in `mode` for the manual state codes. -/
def ACM_MODE_MANUAL : Int := 0

/-- Modelled from the spec: the constant `ACM_MODE_AUTONOMOUS` of
`common-defs.h`, which is not among the sources.  `bleOnDataReceived` stores
`true` in `mode` for the two autonomous state codes of the spec table. -/
def ACM_MODE_AUTONOMOUS : Int := 1

/-- The record `m_carParamOut` (operator command side).  Every field is read
into an `int` local by the callbacks, so every field is an integer here; a
flag is set when it is non-zero. -/
structure CarParamOut where
  dir : Int
  mode : Int
  moving : Int
  turbo : Int
  idle : Int
  autonomousLocked : Int
deriving DecidableEq

/-- Modelled from the spec: the enumeration `RoadDetection_t` returned by the
camera, whose declaration is not among the sources.  The code names
`rightcrit` and `leftcrit`; the spec lists Clear, LeftWarn, RightWarn,
LeftCritical, RightCritical. -/
inductive RoadDetection_t where
  | clear
  | leftwarn
  | rightwarn
  | leftcrit
  | rightcrit
deriving DecidableEq

/-- One proximity channel: `{detected, dist}`.  The distance is a number of
centimetres. -/
structure obstacle where
  detected : Bool
  dist : ℚ
deriving DecidableEq

/-- The record `m_carParamIn` (telemetry side). -/
structure CarParamIn where
  speed : Nat
  dir : Nat
  bat : Nat
  obst : Nat
  obstacles : Fin 6 → obstacle
  roadDetection : RoadDetection_t

/-- One entry value of the table `usSensorParams`. -/
structure UsSensorParam where
  detectionDistanceNormal_cm : ℚ
  detectionDistanceTurbo_cm : ℚ
  speedThresholdNormalTurbo_dmps : ℚ
deriving DecidableEq

/-- Modelled from the spec: the identifier of a CAN frame.  The six constants
`CanId_*` of `common-defs.h` are not among the sources; the spec lists six
message identifiers, taken here as pairwise distinct, and every other
identifier value is `unknown`. -/
inductive CanId where
  | CanId_UltrasoundData
  | CanId_SpeedData
  | CanId_DirectionData
  | CanId_BatteryData
  | CanId_DirectionCmd
  | CanId_SpeedCmd
  | unknown (raw : Nat)
deriving DecidableEq

/-- A received `struct can_frame`, read whole (a short or failed read ends the
process before any state is touched).  `data` holds the eight payload bytes. -/
structure can_frame where
  can_id : CanId
  data : Fin 8 → Nat

/-- A message handed to `m_canController.sendMessage`: the identifier together
with the value of the local (`dir` or `speed`) whose bytes are sent. -/
inductive CanMessage where
  | directionCmd (dir : Int)
  | speedCmd (speed : Nat)
deriving DecidableEq

/-- Which of the two command frames a message is. -/
inductive CanMessageKind where
  | direction
  | speed
deriving DecidableEq

/-- The identifier under which a message is sent. -/
def CanMessage.kind : CanMessage → CanMessageKind
  | .directionCmd _ => .direction
  | .speedCmd _ => .speed

/-! ## `Application::bleOnDataReceived` -/

/-- The body of `bleOnDataReceived` on the byte `value[0]`: `dir` is written
first, then the `switch` on the state code, which has no `default` label. -/
def bleOnDataReceived (value0 : Nat) (m_carParamOut : CarParamOut) : CarParamOut :=
  let current_state : Nat := value0 >>> 5
  let current_dir : Nat := value0 &&& 0x7
  let out := { m_carParamOut with dir := (current_dir : Int) }
  match current_state with
  | 0 => { out with idle := 0, mode := 0, moving := 0, turbo := 0 }
  | 1 => { out with idle := 1, mode := 0, moving := 0, turbo := 0 }
  | 2 => { out with idle := 1, mode := 0, moving := 1, turbo := 0 }
  | 3 => { out with idle := 1, mode := 0, moving := 0, turbo := 1 }
  | 4 => { out with idle := 1, mode := 0, moving := 1, turbo := 1 }
  | 5 => { out with idle := 0, mode := 1, moving := 0, turbo := 0 }
  | 6 => { out with idle := 1, mode := 1, moving := 0, turbo := 0 }
  | _ => out

/-! ## `Application::canOnTimeToSend` -/

/-- The speed computed in the branch `i == 1`. -/
def speedCommand (m_carParamOut : CarParamOut) : Nat :=
  let isMoving := m_carParamOut.moving
  let isTurbo := m_carParamOut.turbo
  let autoLocked := m_carParamOut.autonomousLocked
  let mode := m_carParamOut.mode
  if mode = ACM_MODE_MANUAL then
    if isMoving ≠ 0 ∧ autoLocked = 0 then
      (if isTurbo ≠ 0 then 2 else 1)
    else 0
  else if mode = ACM_MODE_AUTONOMOUS then
    if autoLocked = 0 then 1 else 0
  else 0

/-- The direction computed in the branch `i == 0`. -/
def directionCommand (m_carParamOut : CarParamOut) : Int :=
  let dir := m_carParamOut.dir
  let mode := m_carParamOut.mode
  if mode = ACM_MODE_AUTONOMOUS then 2 else dir

/-- One call of `canOnTimeToSend`: from the static `i` and the command record
to the new `i` and the message sent, if any. -/
def canOnTimeToSend (i : Int) (m_carParamOut : CarParamOut) : Int × Option CanMessage :=
  if i = 0 then
    (1, some (CanMessage.directionCmd (directionCommand m_carParamOut)))
  else if i = 1 then
    (0, some (CanMessage.speedCmd (speedCommand m_carParamOut)))
  else
    (i, none)

/-- Successive calls of `canOnTimeToSend`, the k-th call seeing the k-th
command record of the list; returns what each call sent. -/
def canTicks : Int → List CarParamOut → List (Option CanMessage)
  | _, [] => []
  | i, out :: rest =>
    let r := canOnTimeToSend i out
    r.2 :: canTicks r.1 rest

/-! ## `Application::canOnDataReceived` -/

/-- The summary byte `obstDetection` computed from the six decoded channels,
as stored in the `uint8_t` local. -/
def obstDetectionOf (obst : Fin 6 → obstacle) : Nat :=
  ((((if (obst 0).detected || (obst 1).detected then 0x01 else 0x00) <<< 2) |||
    ((if (obst 2).detected || (obst 3).detected then 0x01 else 0x00) <<< 1) |||
    ((if (obst 4).detected || (obst 5).detected then 0x01 else 0x00) <<< 0)) % 256)

/-- The two bytes `buf[0]`, `buf[1]` built at the end of `canOnDataReceived`.
The locals `obstDetection`, `speed`, `dir`, `bat`, `mode` are `uint8_t`, so
each field is reduced modulo 256 when read, and each byte when stored. -/
def notificationBuf (m_carParamOut : CarParamOut) (m_carParamIn : CarParamIn) : Nat × Nat :=
  let obstDetection : Nat := m_carParamIn.obst % 256
  let speed : Nat := m_carParamIn.speed % 256
  let dir : Nat := m_carParamIn.dir % 256
  let bat : Nat := m_carParamIn.bat % 256
  let mode : Nat := (m_carParamOut.mode % 256).toNat
  let buf0 := (((speed &&& 0x07) <<< 3) ||| ((dir &&& 0x03) <<< 1) ||| ((mode &&& 0x01) <<< 0)) % 256
  let buf1 := (((0x00 : Nat) <<< 4) ||| (obstDetection <<< 2) ||| ((bat &&& 0x03) <<< 0)) % 256
  (buf0, buf1)

/-- The first six payload bytes, copied into `us[6]`. -/
def usBytes (frame : can_frame) : Fin 6 → Nat :=
  fun k => frame.data (Fin.castLE (by decide) k)

/-- The state update of `canOnDataReceived` for one frame: four successive
`if`s on `frame.can_id`.  `detect` is `m_obstacleDetector.detect`, a
collaborator outside the sources. -/
def canUpdate (detect : (Fin 6 → Nat) → (Fin 6 → obstacle)) (frame : can_frame)
    (m_carParamIn : CarParamIn) : CarParamIn :=
  let s1 :=
    if frame.can_id = CanId.CanId_UltrasoundData then
      let obst := detect (usBytes frame)
      { m_carParamIn with obst := obstDetectionOf obst, obstacles := obst }
    else m_carParamIn
  let s2 :=
    if frame.can_id = CanId.CanId_SpeedData then
      { s1 with speed := frame.data 0 / 10 }
    else s1
  let s3 :=
    if frame.can_id = CanId.CanId_DirectionData then
      { s2 with dir := if s2.speed = 0 then 3 else frame.data 0 }
    else s2
  let s4 :=
    if frame.can_id = CanId.CanId_BatteryData then
      { s3 with bat := frame.data 0 }
    else s3
  s4

/-- One call of `canOnDataReceived` on a frame that was read whole: the new
telemetry record and the notification sent. -/
def canOnDataReceived (detect : (Fin 6 → Nat) → (Fin 6 → obstacle)) (frame : can_frame)
    (m_carParamOut : CarParamOut) (m_carParamIn : CarParamIn) : CarParamIn × (Nat × Nat) :=
  let s := canUpdate detect frame m_carParamIn
  (s, notificationBuf m_carParamOut s)

/-- Successive calls of `canOnDataReceived` on a list of frames; returns the
final telemetry record. -/
def canFrames (detect : (Fin 6 → Nat) → (Fin 6 → obstacle)) (m_carParamOut : CarParamOut) :
    List can_frame → CarParamIn → CarParamIn
  | [], s => s
  | frame :: rest, s =>
    canFrames detect m_carParamOut rest (canOnDataReceived detect frame m_carParamOut s).1

/-- The telemetry invariant of the spec: a stored speed of 0 goes with the
stopped direction code 3. -/
def stoppedInvariant (m_carParamIn : CarParamIn) : Prop :=
  m_carParamIn.speed = 0 → m_carParamIn.dir = 3

/-- The one way a list of frames ends with a stale direction: its latest
speed-or-direction frame is a speed frame that decodes to 0, and the direction
stored when that frame arrives is not 3. -/
def endsOnStaleZeroSpeed (detect : (Fin 6 → Nat) → (Fin 6 → obstacle))
    (m_carParamOut : CarParamOut) (frames : List can_frame) (m_carParamIn : CarParamIn) : Prop :=
  ∃ (before : List can_frame) (frame : can_frame) (after : List can_frame),
    frames = before ++ frame :: after
      ∧ frame.can_id = CanId.CanId_SpeedData
      ∧ frame.data 0 / 10 = 0
      ∧ (canFrames detect m_carParamOut before m_carParamIn).dir ≠ 3
      ∧ ∀ g ∈ after, g.can_id ≠ CanId.CanId_SpeedData ∧ g.can_id ≠ CanId.CanId_DirectionData

/-! ## `Application::cameraProcess` -/

/-- The body of `cameraProcess`; `result` is what `m_camera.process()` returned. -/
def cameraProcess (result : RoadDetection_t) (m_carParamIn : CarParamIn) : CarParamIn :=
  { m_carParamIn with roadDetection := result }

/-! ## `Application::autonomousControl` -/

/-- The local `carSpeed = m_carParamIn.speed * 0.36f`, the product taken as an
exact rational number. -/
def carSpeedOf (m_carParamIn : CarParamIn) : ℚ :=
  (m_carParamIn.speed : ℚ) * (36 / 100)

/-- The test of the loop body for one table entry `[usId, usParam]`. -/
def sensorStops (obstacles : Fin 6 → obstacle) (carSpeed : ℚ)
    (usId : Fin 6) (usParam : UsSensorParam) : Bool :=
  (obstacles usId).detected &&
    ((decide ((obstacles usId).dist ≤ usParam.detectionDistanceNormal_cm)
        && decide (carSpeed ≤ usParam.speedThresholdNormalTurbo_dmps))
      || (decide ((obstacles usId).dist ≤ usParam.detectionDistanceTurbo_cm)
        && decide (carSpeed > usParam.speedThresholdNormalTurbo_dmps)))

/-- The range-`for` over `usSensorParams` with its `break`: the value of
`stop` after the loop, `stop` being 0 before it. -/
def scanSensors (obstacles : Fin 6 → obstacle) (carSpeed : ℚ) :
    List (Fin 6 × UsSensorParam) → Int
  | [] => 0
  | (usId, usParam) :: rest =>
    if sensorStops obstacles carSpeed usId usParam then 1
    else scanSensors obstacles carSpeed rest

/-- The value of `stop` just before the edge test: the loop result, forced to
1 on a critical road detection.  `usSensorParams` is the table of the header,
given as its entries in iteration order. -/
def stopVote (usSensorParams : List (Fin 6 × UsSensorParam)) (m_carParamIn : CarParamIn) : Int :=
  let carSpeed := carSpeedOf m_carParamIn
  let obstacles := m_carParamIn.obstacles
  let roadDetection := m_carParamIn.roadDetection
  let stop := scanSensors obstacles carSpeed usSensorParams
  if roadDetection = RoadDetection_t.rightcrit ∨ roadDetection = RoadDetection_t.leftcrit then 1
  else stop

/-- One call of `autonomousControl`: from the static `stopPrev` and the two
records to the new `stopPrev` and the new command record. -/
def autonomousControl (usSensorParams : List (Fin 6 × UsSensorParam)) (stopPrev : Int)
    (m_carParamIn : CarParamIn) (m_carParamOut : CarParamOut) : Int × CarParamOut :=
  let stop := stopVote usSensorParams m_carParamIn
  let out :=
    if stop ≠ stopPrev then { m_carParamOut with autonomousLocked := stop }
    else m_carParamOut
  (stop, out)

/-- The rows of the state-code table of the spec, as
`(idle, mode, moving, turbo)`; there is no row for a code above 6. -/
def stateCodeTable : Nat → Option (Int × Int × Int × Int)
  | 0 => some (0, ACM_MODE_MANUAL, 0, 0)
  | 1 => some (1, ACM_MODE_MANUAL, 0, 0)
  | 2 => some (1, ACM_MODE_MANUAL, 1, 0)
  | 3 => some (1, ACM_MODE_MANUAL, 0, 1)
  | 4 => some (1, ACM_MODE_MANUAL, 1, 1)
  | 5 => some (0, ACM_MODE_AUTONOMOUS, 0, 0)
  | 6 => some (1, ACM_MODE_AUTONOMOUS, 0, 0)
  | _ => none

/-- The speed the spec gives for the speed phase, in its own words:
Manual, (moving and not locked) ? (turbo ? 2 : 1) : 0; Autonomous,
(not locked) ? 1 : 0; anything else 0. -/
def specSpeed (m_carParamOut : CarParamOut) : Nat :=
  if m_carParamOut.mode = ACM_MODE_MANUAL then
    (if m_carParamOut.moving ≠ 0 ∧ m_carParamOut.autonomousLocked = 0 then
      (if m_carParamOut.turbo ≠ 0 then 2 else 1) else 0)
  else if m_carParamOut.mode = ACM_MODE_AUTONOMOUS then
    (if m_carParamOut.autonomousLocked = 0 then 1 else 0)
  else 0

/-- The stop condition of the spec for one sensor, as a proposition on the
stored speed `speedRaw` and the stored obstacle array: detected, and within
the normal distance at `v ≤ threshold` or within the turbo distance at
`v > threshold`, where `v = speedRaw × 0.36`. -/
def specSensorVotes (m_carParamIn : CarParamIn) (usId : Fin 6) (usParam : UsSensorParam) : Prop :=
  (m_carParamIn.obstacles usId).detected = true ∧
    (((m_carParamIn.obstacles usId).dist ≤ usParam.detectionDistanceNormal_cm
        ∧ (m_carParamIn.speed : ℚ) * 0.36 ≤ usParam.speedThresholdNormalTurbo_dmps)
      ∨ ((m_carParamIn.obstacles usId).dist ≤ usParam.detectionDistanceTurbo_cm
        ∧ (m_carParamIn.speed : ℚ) * 0.36 > usParam.speedThresholdNormalTurbo_dmps))

/-- The stop vote of the spec: some table entry votes, or the road is critical. -/
def specStop (usSensorParams : List (Fin 6 × UsSensorParam)) (m_carParamIn : CarParamIn) : Prop :=
  (∃ e ∈ usSensorParams, specSensorVotes m_carParamIn e.1 e.2)
    ∨ m_carParamIn.roadDetection = RoadDetection_t.leftcrit
    ∨ m_carParamIn.roadDetection = RoadDetection_t.rightcrit

/-- The first notification byte as the spec writes it:
`(speedRaw&0x7)<<3 | (direction&0x3)<<1 | (mode bit)`, on 8-bit field values. -/
def specByte0 (speedRaw direction mode : Nat) : Nat :=
  (((speedRaw &&& 0x7) <<< 3) ||| ((direction &&& 0x3) <<< 1) ||| (mode &&& 1)) % 256

/-- The second notification byte as the spec writes it:
`(obstacleBitmask&0x7)<<2 | (batteryLevel&0x3)`, on 8-bit field values. -/
def specByte1 (obstacleBitmask batteryLevel : Nat) : Nat :=
  (((obstacleBitmask &&& 0x7) <<< 2) ||| (batteryLevel &&& 0x3)) % 256

/-- The speed the end-to-end command path gives for a state code, as the spec
table and the speed rule combine: 1 for codes 2, 5 and 6, 2 for code 4, else 0. -/
def specPathSpeed : Nat → Nat
  | 2 => 1
  | 4 => 2
  | 5 => 1
  | 6 => 1
  | _ => 0

/-! ## The application object and its callbacks -/

/-- The mutable state of `acm::Application` that the callbacks touch: the two
records and the two function-local statics (`stopPrev` of
`autonomousControl`, `i` of `canOnTimeToSend`, both initialised to 0). -/
structure Application where
  m_carParamOut : CarParamOut
  m_carParamIn : CarParamIn
  stopPrev : Int
  i : Int

/-- The callbacks registered on the main loop by `Application::run`, each with
what the outside world hands it. -/
inductive Callback where
  | bleWrite (value0 : Nat)
  | canRead (frame : can_frame)
  | canSendTimer
  | autonomousTimer
  | cameraTimer (result : RoadDetection_t)

/-- One callback run to completion on the application state.  `detect` and
`usSensorParams` are the collaborator and the table declared outside the
sources. -/
def Application.call (detect : (Fin 6 → Nat) → (Fin 6 → obstacle))
    (usSensorParams : List (Fin 6 × UsSensorParam)) (app : Application) :
    Callback → Application
  | .bleWrite value0 =>
    { app with m_carParamOut := bleOnDataReceived value0 app.m_carParamOut }
  | .canRead frame =>
    { app with m_carParamIn :=
        (canOnDataReceived detect frame app.m_carParamOut app.m_carParamIn).1 }
  | .canSendTimer =>
    { app with i := (canOnTimeToSend app.i app.m_carParamOut).1 }
  | .autonomousTimer =>
    { app with
        stopPrev :=
          (autonomousControl usSensorParams app.stopPrev app.m_carParamIn app.m_carParamOut).1,
        m_carParamOut :=
          (autonomousControl usSensorParams app.stopPrev app.m_carParamIn app.m_carParamOut).2 }
  | .cameraTimer result =>
    { app with m_carParamIn := cameraProcess result app.m_carParamIn }

/-- The callbacks of a list run one after the other, in the order the main
loop fires them. -/
def Application.run (detect : (Fin 6 → Nat) → (Fin 6 → obstacle))
    (usSensorParams : List (Fin 6 × UsSensorParam)) :
    Application → List Callback → Application
  | app, [] => app
  | app, cb :: rest =>
    Application.run detect usSensorParams (Application.call detect usSensorParams app cb) rest

/-- Whether a callback is the governor timer. -/
def Callback.isAutonomousTimer : Callback → Bool
  | .autonomousTimer => true
  | _ => false

/-! ## Sample data -/

/-- A parameter table with the distances of the earlier hard-coded loop
(sensors 2 and 3: 100 and 140; sensors 0 and 4: 20 and 40; sensors 1 and 5:
40 and 60) and a speed threshold of 5. -/
def sampleTable : List (Fin 6 × UsSensorParam) :=
  [(0, ⟨20, 40, 5⟩), (1, ⟨40, 60, 5⟩), (2, ⟨100, 140, 5⟩),
   (3, ⟨100, 140, 5⟩), (4, ⟨20, 40, 5⟩), (5, ⟨40, 60, 5⟩)]

/-- A telemetry record with raw speed 10, only sensor 2 detecting, at the
given distance, and the given road detection. -/
def sampleTelemetry (dist : ℚ) (road : RoadDetection_t) : CarParamIn :=
  { speed := 10, dir := 1, bat := 2, obst := 2,
    obstacles := fun j => if j = 2 then ⟨true, dist⟩ else ⟨false, 0⟩,
    roadDetection := road }

/-- The sample record with another raw speed: only sensor 2 detecting, at the
given distance, road clear. -/
def movingTelemetry (speed : Nat) (dist : ℚ) : CarParamIn :=
  { sampleTelemetry dist RoadDetection_t.clear with speed := speed }

/-- A telemetry record with the given speed and direction and no obstacle. -/
def quietTelemetry (speed dir : Nat) : CarParamIn :=
  { speed := speed, dir := dir, bat := 0, obst := 0,
    obstacles := fun _ => ⟨false, 0⟩, roadDetection := RoadDetection_t.clear }

/-- A proximity decoder that detects nothing. -/
def detectNothing : (Fin 6 → Nat) → (Fin 6 → obstacle) :=
  fun _ _ => ⟨false, 0⟩

/-- A frame with the given identifier whose payload bytes all equal `byte`. -/
def frameOf (can_id : CanId) (byte : Nat) : can_frame :=
  { can_id := can_id, data := fun _ => byte }

/-! ## Command decoder and command multiplexer -/

/-- C1: when `autonomousLocked` is set (non-zero), the speed-phase call of
`canOnTimeToSend` (static `i` equal to 1) sends the speed command 0 and
returns to phase 0, whatever mode, moving, turbo, direction and idle are. -/
theorem interlock_forces_zero_speed (out : CarParamOut) (h : out.autonomousLocked ≠ 0) :
    canOnTimeToSend 1 out = (0, some (CanMessage.speedCmd 0)) := by
  simp [canOnTimeToSend, speedCommand, h]

/-- Witness of C1: manual mode, moving, turbo, with the interlock set. -/
theorem interlock_forces_zero_speed_witness :
    (1 : Int) ≠ 0 ∧
      canOnTimeToSend 1 ⟨5, ACM_MODE_MANUAL, 1, 1, 1, 1⟩ = (0, some (CanMessage.speedCmd 0)) :=
  ⟨by decide, interlock_forces_zero_speed ⟨5, ACM_MODE_MANUAL, 1, 1, 1, 1⟩ (by decide)⟩

/-- C2: for every command byte whose state code `value0 >> 5` is at most 6,
the fields (idle, mode, moving, turbo) after `bleOnDataReceived` are exactly
the row of the state-code table for that code, for every previous record. -/
theorem decoder_matches_state_table (value0 : Nat) (out : CarParamOut)
    (h : value0 >>> 5 ≤ 6) :
    stateCodeTable (value0 >>> 5) =
      some ((bleOnDataReceived value0 out).idle, (bleOnDataReceived value0 out).mode,
        (bleOnDataReceived value0 out).moving, (bleOnDataReceived value0 out).turbo) := by
  unfold bleOnDataReceived
  generalize value0 >>> 5 = c at h ⊢
  interval_cases c <;> rfl

/-- Witness of C2: the byte 0x85 (state code 4, direction 5) on a record in
autonomous mode. -/
theorem decoder_matches_state_table_witness :
    (0x85 : Nat) >>> 5 ≤ 6 ∧
      stateCodeTable ((0x85 : Nat) >>> 5) =
        some ((bleOnDataReceived 0x85 ⟨0, 1, 0, 0, 0, 1⟩).idle,
          (bleOnDataReceived 0x85 ⟨0, 1, 0, 0, 0, 1⟩).mode,
          (bleOnDataReceived 0x85 ⟨0, 1, 0, 0, 0, 1⟩).moving,
          (bleOnDataReceived 0x85 ⟨0, 1, 0, 0, 0, 1⟩).turbo) :=
  ⟨by decide, decoder_matches_state_table 0x85 ⟨0, 1, 0, 0, 0, 1⟩ (by decide)⟩

/-- C3, as stated, fails: the byte 0xE5 has the undefined state code 7, and
`bleOnDataReceived` on a record with direction 0 returns a record with
direction 5, so the record after the call is not the record before it. -/
theorem undefined_code_changes_state :
    (0xE5 : Nat) < 256 ∧ (0xE5 : Nat) >>> 5 = 7 ∧
      bleOnDataReceived 0xE5 ⟨0, 0, 0, 0, 0, 0⟩ = ⟨5, 0, 0, 0, 0, 0⟩ ∧
      bleOnDataReceived 0xE5 ⟨0, 0, 0, 0, 0, 0⟩ ≠ ⟨0, 0, 0, 0, 0, 0⟩ := by
  decide

/-- C3, amended: for every command byte with the undefined state code 7,
`bleOnDataReceived` returns (it is total), leaves idle, mode, moving, turbo and
autonomousLocked as they were, and overwrites the direction with the lowest
three bits of the byte. -/
theorem undefined_code_keeps_all_but_direction (value0 : Nat) (out : CarParamOut)
    (h : value0 >>> 5 = 7) :
    bleOnDataReceived value0 out = { out with dir := ((value0 &&& 0x7 : Nat) : Int) } := by
  unfold bleOnDataReceived
  simp only [h]

/-- Witness of the amended C3: the byte 0xE5 on a moving manual record. -/
theorem undefined_code_keeps_all_but_direction_witness :
    (0xE5 : Nat) >>> 5 = 7 ∧
      bleOnDataReceived 0xE5 ⟨0, 0, 1, 0, 1, 0⟩ = ⟨5, 0, 1, 0, 1, 0⟩ :=
  ⟨by decide, undefined_code_keeps_all_but_direction 0xE5 ⟨0, 0, 1, 0, 1, 0⟩ (by decide)⟩

/-- C4: for every command byte (the state code 7 included) and every previous
record, the direction stored by `bleOnDataReceived` is the lowest three bits
of the byte, a value below 8. -/
theorem decoder_writes_direction (value0 : Nat) (out : CarParamOut) :
    (bleOnDataReceived value0 out).dir = ((value0 &&& 0x7 : Nat) : Int) ∧
      (value0 &&& 0x7) = value0 % 8 := by
  refine ⟨?_, Nat.and_pow_two_sub_one_eq_mod value0 3⟩
  unfold bleOnDataReceived
  simp only []
  split <;> rfl

/-- C5: for every command record, the speed-phase call of `canOnTimeToSend`
sends the speed the spec gives: in Manual mode (turbo ? 2 : 1) when moving and
not locked, else 0; in Autonomous mode 1 when not locked, else 0; for every
other mode value 0. -/
theorem speed_phase_matches_spec (out : CarParamOut) :
    canOnTimeToSend 1 out = (0, some (CanMessage.speedCmd (specSpeed out))) := by
  simp [canOnTimeToSend, speedCommand, specSpeed]

/-- The kinds of the messages sent by calls of `canOnTimeToSend` that start in
phase `i` (0 or 1): call number `n` sends a direction command when `n + i` is
even and a speed command when it is odd. -/
theorem canTicks_kind_at (outs : List CarParamOut) :
    ∀ (i : Nat), i < 2 → ∀ n, n < outs.length →
      ((canTicks (i : Int) outs).map (Option.map CanMessage.kind))[n]? =
        some (if (n + i) % 2 = 0 then some CanMessageKind.direction
          else some CanMessageKind.speed) := by
  induction outs with
  | nil => intro i _ n hn; simp at hn
  | cons out rest ih =>
    intro i hi n hn
    interval_cases i
    · cases n with
      | zero => simp [canTicks, canOnTimeToSend, CanMessage.kind]
      | succ m =>
        have hm : m < rest.length := by simpa using hn
        have := ih 1 (by decide) m hm
        simp only [canTicks, canOnTimeToSend, List.map_cons, List.getElem?_cons_succ]
        simpa [Nat.add_assoc] using this
    · cases n with
      | zero => simp [canTicks, canOnTimeToSend, CanMessage.kind]
      | succ m =>
        have hm : m < rest.length := by simpa using hn
        have := ih 0 (by decide) m hm
        simp only [canTicks, canOnTimeToSend, List.map_cons, List.getElem?_cons_succ]
        have e : (m + 1 + 1) % 2 = m % 2 := by omega
        simpa [e] using this

/-- Every call of `canOnTimeToSend` yields one entry in the trace. -/
theorem canTicks_length (outs : List CarParamOut) :
    ∀ i : Int, (canTicks i outs).length = outs.length := by
  induction outs with
  | nil => intro i; rfl
  | cons out rest ih => intro i; simp [canTicks, ih]

/-- C6: starting from phase 0, for every list of command records seen by the
successive calls of `canOnTimeToSend`, every call sends exactly one message,
call number n (from 0) sending a direction command when n is even and a speed
command when n is odd; four calls send direction, speed, direction, speed. -/
theorem ticks_alternate_direction_speed (outs : List CarParamOut) :
    (canTicks 0 outs).map (Option.map CanMessage.kind) =
        (List.range outs.length).map
          (fun n => if n % 2 = 0 then some CanMessageKind.direction
            else some CanMessageKind.speed)
      ∧ ∀ a b c d : CarParamOut,
          (canTicks 0 [a, b, c, d]).map (Option.map CanMessage.kind) =
            [some CanMessageKind.direction, some CanMessageKind.speed,
              some CanMessageKind.direction, some CanMessageKind.speed] := by
  constructor
  · apply List.ext_getElem?
    intro n
    by_cases hn : n < outs.length
    · have := canTicks_kind_at outs 0 (by decide) n hn
      simp only [Nat.cast_zero, Nat.add_zero] at this
      rw [this]
      simp [List.getElem?_range, hn]
    · have h1 : ((canTicks 0 outs).map (Option.map CanMessage.kind)).length ≤ n := by
        simp [canTicks_length]; omega
      have h2 : ((List.range outs.length).map
          (fun n => if n % 2 = 0 then some CanMessageKind.direction
            else some CanMessageKind.speed)).length ≤ n := by
        simp; omega
      rw [List.getElem?_eq_none h1, List.getElem?_eq_none h2]
  · intro a b c d
    rfl

/-! ## Safety governor -/

/-- The speed the governor computes is the stored raw speed times 0.36. -/
theorem carSpeedOf_eq (inp : CarParamIn) : carSpeedOf inp = (inp.speed : ℚ) * 0.36 := by
  unfold carSpeedOf
  norm_num

/-- The loop test is the stop condition of the spec for that sensor. -/
theorem sensorStops_iff (inp : CarParamIn) (usId : Fin 6) (usParam : UsSensorParam) :
    sensorStops inp.obstacles (carSpeedOf inp) usId usParam = true ↔
      specSensorVotes inp usId usParam := by
  rw [carSpeedOf_eq]
  simp [sensorStops, specSensorVotes]

/-- The loop leaves `stop` at 1 exactly when some entry passes the test. -/
theorem scanSensors_eq_one_iff (obstacles : Fin 6 → obstacle) (carSpeed : ℚ)
    (table : List (Fin 6 × UsSensorParam)) :
    scanSensors obstacles carSpeed table = 1 ↔
      ∃ e ∈ table, sensorStops obstacles carSpeed e.1 e.2 = true := by
  induction table with
  | nil => simp [scanSensors]
  | cons e rest ih =>
    obtain ⟨usId, usParam⟩ := e
    by_cases hs : sensorStops obstacles carSpeed usId usParam = true
    · simp [scanSensors, hs]
    · simp [scanSensors, hs, ih]

/-- The loop leaves `stop` at 0 or at 1. -/
theorem scanSensors_zero_or_one (obstacles : Fin 6 → obstacle) (carSpeed : ℚ)
    (table : List (Fin 6 × UsSensorParam)) :
    scanSensors obstacles carSpeed table = 0 ∨ scanSensors obstacles carSpeed table = 1 := by
  induction table with
  | nil => exact Or.inl rfl
  | cons e rest ih =>
    obtain ⟨usId, usParam⟩ := e
    by_cases hs : sensorStops obstacles carSpeed usId usParam = true
    · simp [scanSensors, hs]
    · simpa [scanSensors, hs] using ih

/-- The vote is 1 exactly when the stop condition of the spec holds. -/
theorem stopVote_eq_one_iff (table : List (Fin 6 × UsSensorParam)) (inp : CarParamIn) :
    stopVote table inp = 1 ↔ specStop table inp := by
  unfold stopVote specStop
  simp only []
  by_cases hr : inp.roadDetection = RoadDetection_t.rightcrit ∨
      inp.roadDetection = RoadDetection_t.leftcrit
  · rw [if_pos hr]
    simp only [true_iff]
    rcases hr with hr | hr
    · exact Or.inr (Or.inr hr)
    · exact Or.inr (Or.inl hr)
  · rw [if_neg hr, scanSensors_eq_one_iff]
    have h1 : ¬ inp.roadDetection = RoadDetection_t.leftcrit := fun h => hr (Or.inr h)
    have h2 : ¬ inp.roadDetection = RoadDetection_t.rightcrit := fun h => hr (Or.inl h)
    simp only [h1, h2, or_false]
    constructor
    · rintro ⟨e, he, hs⟩
      exact ⟨e, he, (sensorStops_iff inp e.1 e.2).1 hs⟩
    · rintro ⟨e, he, hs⟩
      exact ⟨e, he, (sensorStops_iff inp e.1 e.2).2 hs⟩

/-- The vote is 0 or 1. -/
theorem stopVote_zero_or_one (table : List (Fin 6 × UsSensorParam)) (inp : CarParamIn) :
    stopVote table inp = 0 ∨ stopVote table inp = 1 := by
  unfold stopVote
  simp only []
  split
  · exact Or.inr rfl
  · exact scanSensors_zero_or_one _ _ _

/-- C7: for every telemetry record and every parameter table, the stop vote of
`autonomousControl` is 1 when some table entry i has `obstacles[i]` detected
and (dist_i ≤ normal_i and v ≤ threshold_i) or (dist_i ≤ turbo_i and
v > threshold_i), or when the road detection is leftcrit or rightcrit, and it
is 0 otherwise, where v is the stored raw speed times 0.36 as an exact
rational.  With sensor 2 detected at 90 and an entry for sensor 2 with
v ≤ threshold and a normal distance of at least 90, the vote is 1; with only
sensor 2 detected, at 150, the road clear, and every entry for sensor 2 having
v ≤ threshold and a normal distance below 150, the vote is 0. -/
theorem stop_vote_formula (table : List (Fin 6 × UsSensorParam)) (inp : CarParamIn) :
    (stopVote table inp = 1 ↔
        ((∃ e ∈ table, (inp.obstacles e.1).detected = true ∧
            (((inp.obstacles e.1).dist ≤ e.2.detectionDistanceNormal_cm
                ∧ (inp.speed : ℚ) * 0.36 ≤ e.2.speedThresholdNormalTurbo_dmps)
              ∨ ((inp.obstacles e.1).dist ≤ e.2.detectionDistanceTurbo_cm
                ∧ (inp.speed : ℚ) * 0.36 > e.2.speedThresholdNormalTurbo_dmps)))
          ∨ inp.roadDetection = RoadDetection_t.leftcrit
          ∨ inp.roadDetection = RoadDetection_t.rightcrit))
      ∧ (specStop table inp → stopVote table inp = 1)
      ∧ (¬ specStop table inp → stopVote table inp = 0)
      ∧ (∀ p : UsSensorParam, ((2 : Fin 6), p) ∈ table →
          inp.obstacles 2 = ⟨true, 90⟩ →
          (inp.speed : ℚ) * 0.36 ≤ p.speedThresholdNormalTurbo_dmps →
          90 ≤ p.detectionDistanceNormal_cm →
          stopVote table inp = 1)
      ∧ (inp.obstacles 2 = ⟨true, 150⟩ →
          (∀ j : Fin 6, j ≠ 2 → (inp.obstacles j).detected = false) →
          inp.roadDetection = RoadDetection_t.clear →
          (∀ e ∈ table, e.1 = 2 →
            (inp.speed : ℚ) * 0.36 ≤ e.2.speedThresholdNormalTurbo_dmps
              ∧ e.2.detectionDistanceNormal_cm < 150) →
          stopVote table inp = 0) := by
  refine ⟨stopVote_eq_one_iff table inp, (stopVote_eq_one_iff table inp).2, ?_, ?_, ?_⟩
  · intro hn
    rcases stopVote_zero_or_one table inp with h | h
    · exact h
    · exact absurd ((stopVote_eq_one_iff table inp).1 h) hn
  · intro p hp hobs hv hd
    apply (stopVote_eq_one_iff table inp).2
    refine Or.inl ⟨(2, p), hp, ?_⟩
    simp only [specSensorVotes, hobs, true_and]
    exact Or.inl ⟨hd, hv⟩
  · intro hobs hothers hroad hpar
    rcases stopVote_zero_or_one table inp with h | h
    · exact h
    · exfalso
      rcases (stopVote_eq_one_iff table inp).1 h with ⟨e, he, hdet, hcond⟩ | hc | hc
      · by_cases h2 : e.1 = 2
        · obtain ⟨hv, hd⟩ := hpar e he h2
          rw [h2, hobs] at hcond
          rcases hcond with ⟨hle, _⟩ | ⟨_, hgt⟩
          · exact absurd (lt_of_lt_of_le hd hle) (lt_irrefl _)
          · exact absurd hv (not_le.2 hgt)
        · rw [hothers e.1 h2] at hdet
          exact absurd hdet (by decide)
      · rw [hroad] at hc
        exact absurd hc (by decide)
      · rw [hroad] at hc
        exact absurd hc (by decide)

/-- Witness of C7, on the sample table (sensor 2: normal 100, turbo 140,
threshold 5).  Raw speed 10 (v = 3.6): distance 90 votes stop, distance 150
does not.  Distance 120, between the two distances: raw speed 13 (v = 4.68,
not above 5) does not vote stop, raw speed 14 (v = 5.04, above 5) does. -/
theorem stop_vote_formula_witness :
    stopVote sampleTable (sampleTelemetry 90 RoadDetection_t.clear) = 1
      ∧ stopVote sampleTable (sampleTelemetry 150 RoadDetection_t.clear) = 0
      ∧ stopVote sampleTable (movingTelemetry 13 120) = 0
      ∧ stopVote sampleTable (movingTelemetry 14 120) = 1 :=
  ⟨(stop_vote_formula sampleTable (sampleTelemetry 90 RoadDetection_t.clear)).2.2.2.1
      ⟨100, 140, 5⟩ (by simp [sampleTable]) rfl
      (by norm_num [sampleTelemetry]) (by norm_num),
   (stop_vote_formula sampleTable (sampleTelemetry 150 RoadDetection_t.clear)).2.2.2.2
      rfl (by intro j hj; simp [sampleTelemetry, hj]) rfl
      (by
        intro e he h2
        simp only [sampleTable, List.mem_cons, List.mem_singleton, List.not_mem_nil,
          or_false] at he
        rcases he with rfl | rfl | rfl | rfl | rfl | rfl <;>
          first
            | exact absurd h2 (by decide)
            | norm_num [sampleTelemetry]),
   (stop_vote_formula sampleTable (movingTelemetry 13 120)).2.2.1
      (by
        rintro (⟨e, he, hdet, hcond⟩ | hc | hc)
        · simp only [sampleTable, List.mem_cons, List.mem_singleton, List.not_mem_nil,
            or_false] at he
          rcases he with rfl | rfl | rfl | rfl | rfl | rfl <;>
            simp only [movingTelemetry, sampleTelemetry] at hdet hcond <;>
            first
              | exact absurd hdet (by decide)
              | norm_num at hcond
        · exact absurd hc (by simp [movingTelemetry, sampleTelemetry])
        · exact absurd hc (by simp [movingTelemetry, sampleTelemetry])),
   (stop_vote_formula sampleTable (movingTelemetry 14 120)).2.1
      (Or.inl ⟨(2, ⟨100, 140, 5⟩), by simp [sampleTable],
        by norm_num [specSensorVotes, movingTelemetry, sampleTelemetry]⟩)⟩

/-- C8: when the road detection is leftcrit or rightcrit, the stop vote of
`autonomousControl` is 1 for every speed, every obstacle array and every
parameter table. -/
theorem critical_road_votes_stop (table : List (Fin 6 × UsSensorParam)) (inp : CarParamIn)
    (stopPrev : Int) (out : CarParamOut)
    (h : inp.roadDetection = RoadDetection_t.leftcrit ∨
      inp.roadDetection = RoadDetection_t.rightcrit) :
    stopVote table inp = 1 ∧ (autonomousControl table stopPrev inp out).1 = 1 := by
  have hv : stopVote table inp = 1 := by
    unfold stopVote
    simp only []
    rw [if_pos (Or.symm h)]
  exact ⟨hv, hv⟩

/-- Witness of C8: no obstacle at all, empty table, road detection leftcrit. -/
theorem critical_road_votes_stop_witness :
    stopVote [] (cameraProcess RoadDetection_t.leftcrit (quietTelemetry 0 3)) = 1 :=
  (critical_road_votes_stop [] (cameraProcess RoadDetection_t.leftcrit (quietTelemetry 0 3))
    0 ⟨0, 0, 0, 0, 0, 0⟩ (Or.inl rfl)).1

/-- C9: in a call of `autonomousControl`, when the stop vote equals `stopPrev`
the command record is returned unchanged; when it differs, only
`autonomousLocked` is written, with the vote; the new `stopPrev` is the vote;
and a second call on the same telemetry returns the record of the first. -/
theorem interlock_edge_triggered (table : List (Fin 6 × UsSensorParam)) (stopPrev : Int)
    (inp : CarParamIn) (out : CarParamOut) :
    (stopVote table inp = stopPrev →
        (autonomousControl table stopPrev inp out).2 = out)
      ∧ (stopVote table inp ≠ stopPrev →
        (autonomousControl table stopPrev inp out).2 =
          { out with autonomousLocked := stopVote table inp })
      ∧ (autonomousControl table stopPrev inp out).1 = stopVote table inp
      ∧ (autonomousControl table (autonomousControl table stopPrev inp out).1 inp
          (autonomousControl table stopPrev inp out).2).2 =
        (autonomousControl table stopPrev inp out).2 := by
  refine ⟨?_, ?_, rfl, ?_⟩
  · intro h
    simp [autonomousControl, h]
  · intro h
    simp [autonomousControl, h]
  · simp [autonomousControl]

/-- Witness of C9: the sample obstacle at 90 with `stopPrev` 0 locks an
unlocked record; with `stopPrev` 1 the unlocked record stays as it is. -/
theorem interlock_edge_triggered_witness :
    (autonomousControl sampleTable 0 (sampleTelemetry 90 RoadDetection_t.clear)
        ⟨0, 0, 1, 0, 1, 0⟩).2 = ⟨0, 0, 1, 0, 1, 1⟩
      ∧ (autonomousControl sampleTable 1 (sampleTelemetry 90 RoadDetection_t.clear)
        ⟨0, 0, 1, 0, 1, 0⟩).2 = ⟨0, 0, 1, 0, 1, 0⟩ := by
  have hv : stopVote sampleTable (sampleTelemetry 90 RoadDetection_t.clear) = 1 := by
    apply (stopVote_eq_one_iff _ _).2
    refine Or.inl ⟨(2, ⟨100, 140, 5⟩), by simp [sampleTable], ?_⟩
    norm_num [specSensorVotes, sampleTelemetry]
  constructor
  · rw [(interlock_edge_triggered sampleTable 0 (sampleTelemetry 90 RoadDetection_t.clear)
      ⟨0, 0, 1, 0, 1, 0⟩).2.1 (by rw [hv]; decide), hv]
  · exact (interlock_edge_triggered sampleTable 1 (sampleTelemetry 90 RoadDetection_t.clear)
      ⟨0, 0, 1, 0, 1, 0⟩).1 hv

/-! ## Telemetry decoder -/

/-- A speed frame writes `speed` only. -/
theorem canUpdate_speed_frame (detect : (Fin 6 → Nat) → (Fin 6 → obstacle))
    (frame : can_frame) (s : CarParamIn) (h : frame.can_id = CanId.CanId_SpeedData) :
    canUpdate detect frame s = { s with speed := frame.data 0 / 10 } := by
  simp [canUpdate, h]

/-- A direction frame writes `dir` only, from the stored speed. -/
theorem canUpdate_direction_frame (detect : (Fin 6 → Nat) → (Fin 6 → obstacle))
    (frame : can_frame) (s : CarParamIn) (h : frame.can_id = CanId.CanId_DirectionData) :
    canUpdate detect frame s =
      { s with dir := if s.speed = 0 then 3 else frame.data 0 } := by
  simp [canUpdate, h]

/-- A frame that is neither a speed nor a direction frame leaves `speed` and
`dir` as they were. -/
theorem canUpdate_other_frame (detect : (Fin 6 → Nat) → (Fin 6 → obstacle))
    (frame : can_frame) (s : CarParamIn)
    (h1 : frame.can_id ≠ CanId.CanId_SpeedData)
    (h2 : frame.can_id ≠ CanId.CanId_DirectionData) :
    (canUpdate detect frame s).speed = s.speed ∧ (canUpdate detect frame s).dir = s.dir := by
  unfold canUpdate
  simp only [h1, h2, if_false]
  constructor <;> split <;> split <;> rfl

/-- Processing two lists of frames one after the other. -/
theorem canFrames_append (detect : (Fin 6 → Nat) → (Fin 6 → obstacle))
    (out : CarParamOut) (before after : List can_frame) :
    ∀ s : CarParamIn,
      canFrames detect out (before ++ after) s =
        canFrames detect out after (canFrames detect out before s) := by
  induction before with
  | nil => intro s; rfl
  | cons frame rest ih =>
    intro s
    simp only [List.cons_append, canFrames]
    exact ih _

/-- Frames that are neither speed nor direction frames leave `speed` and `dir`
as they were. -/
theorem canFrames_other_frames (detect : (Fin 6 → Nat) → (Fin 6 → obstacle))
    (out : CarParamOut) (frames : List can_frame) :
    ∀ s : CarParamIn,
      (∀ g ∈ frames, g.can_id ≠ CanId.CanId_SpeedData ∧ g.can_id ≠ CanId.CanId_DirectionData) →
      (canFrames detect out frames s).speed = s.speed
        ∧ (canFrames detect out frames s).dir = s.dir := by
  induction frames with
  | nil => intro s _; exact ⟨rfl, rfl⟩
  | cons frame rest ih =>
    intro s h
    simp only [canFrames, canOnDataReceived]
    obtain ⟨h1, h2⟩ := h frame (List.mem_cons_self _ _)
    obtain ⟨e1, e2⟩ := canUpdate_other_frame detect frame s h1 h2
    obtain ⟨r1, r2⟩ := ih (canUpdate detect frame s)
      (fun g hg => h g (List.mem_cons_of_mem _ hg))
    exact ⟨r1.trans e1, r2.trans e2⟩

/-- A list that ends on a stale zero speed breaks the invariant, whatever the
starting record. -/
theorem stale_zero_speed_breaks (detect : (Fin 6 → Nat) → (Fin 6 → obstacle))
    (out : CarParamOut) (frames : List can_frame) (s : CarParamIn)
    (h : endsOnStaleZeroSpeed detect out frames s) :
    ¬ stoppedInvariant (canFrames detect out frames s) := by
  obtain ⟨before, frame, after, hsplit, hid, hz, hdir, hafter⟩ := h
  intro hinv
  have e : canFrames detect out frames s =
      canFrames detect out after
        (canUpdate detect frame (canFrames detect out before s)) := by
    rw [hsplit, canFrames_append]
    simp only [canFrames, canOnDataReceived]
  obtain ⟨r1, r2⟩ := canFrames_other_frames detect out after
    (canUpdate detect frame (canFrames detect out before s)) hafter
  have u1 : (canUpdate detect frame (canFrames detect out before s)).speed =
      frame.data 0 / 10 := by
    rw [canUpdate_speed_frame detect frame _ hid]
  have u2 : (canUpdate detect frame (canFrames detect out before s)).dir =
      (canFrames detect out before s).dir := by
    rw [canUpdate_speed_frame detect frame _ hid]
  rw [e] at hinv
  have hd := hinv (r1.trans (u1.trans hz))
  rw [r2, u2] at hd
  exact hdir hd

/-- A list that does not end on a stale zero speed keeps the invariant. -/
theorem no_stale_zero_speed_keeps (detect : (Fin 6 → Nat) → (Fin 6 → obstacle))
    (out : CarParamOut) (frames : List can_frame) (s : CarParamIn)
    (h0 : stoppedInvariant s) :
    ¬ endsOnStaleZeroSpeed detect out frames s →
      stoppedInvariant (canFrames detect out frames s) := by
  induction frames using List.reverseRecOn with
  | nil => intro _; exact h0
  | append_singleton init g ih =>
    intro hn
    have e : canFrames detect out (init ++ [g]) s =
        canUpdate detect g (canFrames detect out init s) := by
      rw [canFrames_append]
      simp only [canFrames, canOnDataReceived]
    rw [e]
    by_cases h1 : g.can_id = CanId.CanId_SpeedData
    · rw [canUpdate_speed_frame detect g _ h1]
      intro hz
      by_contra hd
      exact hn ⟨init, g, [], rfl, h1, hz, hd, fun _ hg => absurd hg (List.not_mem_nil _)⟩
    · by_cases h2 : g.can_id = CanId.CanId_DirectionData
      · rw [canUpdate_direction_frame detect g _ h2]
        intro hz
        have hz0 : (canFrames detect out init s).speed = 0 := hz
        show (if (canFrames detect out init s).speed = 0 then 3 else g.data 0) = 3
        rw [if_pos hz0]
      · obtain ⟨e1, e2⟩ := canUpdate_other_frame detect g (canFrames detect out init s) h1 h2
        have hinit : stoppedInvariant (canFrames detect out init s) := by
          apply ih
          rintro ⟨before, frame, after, hsplit, hid, hz, hdir, hafter⟩
          refine hn ⟨before, frame, after ++ [g], ?_, hid, hz, hdir, ?_⟩
          · rw [hsplit, List.append_assoc, List.cons_append]
          · intro x hx
            rcases List.mem_append.1 hx with hx | hx
            · exact hafter x hx
            · rw [List.mem_singleton.1 hx]
              exact ⟨h1, h2⟩
        intro hz
        rw [e1] at hz
        rw [e2]
        exact hinit hz

/-- C10, as stated, fails: the record with speed 5 and direction 1 satisfies
the invariant; after one speed frame with payload 0 the stored speed is 0 and
the stored direction is still 1, not 3. -/
theorem speed_frame_breaks_stopped_invariant :
    stoppedInvariant (quietTelemetry 5 1)
      ∧ (canOnDataReceived detectNothing (frameOf CanId.CanId_SpeedData 0)
          ⟨0, 0, 0, 0, 0, 0⟩ (quietTelemetry 5 1)).1.speed = 0
      ∧ (canOnDataReceived detectNothing (frameOf CanId.CanId_SpeedData 0)
          ⟨0, 0, 0, 0, 0, 0⟩ (quietTelemetry 5 1)).1.dir = 1
      ∧ ¬ stoppedInvariant (canFrames detectNothing ⟨0, 0, 0, 0, 0, 0⟩
          [frameOf CanId.CanId_SpeedData 0] (quietTelemetry 5 1)) := by
  refine ⟨?_, rfl, rfl, ?_⟩
  · intro h
    exact absurd h (by decide)
  · intro h
    exact absurd (h rfl) (by decide)

/-- C10, amended: starting from a record that satisfies the invariant, after
every list of bus frames a stored speed of 0 goes with the stored direction 3,
whatever the payload bytes are, except exactly when the latest
speed-or-direction frame of the list is a speed frame that decodes to 0 and
the direction stored when it arrives is not 3.  For one frame: the invariant
is kept except exactly by a speed frame decoding to 0 on a stored direction
other than 3. -/
theorem stopped_invariant_kept_unless_stale_zero_speed
    (detect : (Fin 6 → Nat) → (Fin 6 → obstacle)) (out : CarParamOut)
    (frames : List can_frame) (frame : can_frame) (s : CarParamIn)
    (h0 : stoppedInvariant s) :
    (stoppedInvariant (canFrames detect out frames s) ↔
        ¬ endsOnStaleZeroSpeed detect out frames s)
      ∧ (stoppedInvariant (canOnDataReceived detect frame out s).1 ↔
        ¬ (frame.can_id = CanId.CanId_SpeedData ∧ frame.data 0 / 10 = 0 ∧ s.dir ≠ 3)) := by
  constructor
  · constructor
    · intro hinv hstale
      exact stale_zero_speed_breaks detect out frames s hstale hinv
    · exact no_stale_zero_speed_keeps detect out frames s h0
  · simp only [canOnDataReceived]
    by_cases h1 : frame.can_id = CanId.CanId_SpeedData
    · rw [canUpdate_speed_frame detect frame s h1]
      constructor
      · intro hinv hc
        exact hc.2.2 (hinv hc.2.1)
      · intro hn hz
        by_contra hd
        exact hn ⟨h1, hz, hd⟩
    · constructor
      · intro _ hc
        exact h1 hc.1
      · intro _
        by_cases h2 : frame.can_id = CanId.CanId_DirectionData
        · rw [canUpdate_direction_frame detect frame s h2]
          intro hz
          have hz0 : s.speed = 0 := hz
          show (if s.speed = 0 then 3 else frame.data 0) = 3
          rw [if_pos hz0]
        · obtain ⟨e1, e2⟩ := canUpdate_other_frame detect frame s h1 h2
          intro hz
          rw [e1] at hz
          rw [e2]
          exact h0 hz

/-- Witness of the amended C10: from the record with speed 5 and direction 1,
the frames speed 0, direction 2, speed 0 end on a zero speed frame that finds
the direction already at 3, and the invariant holds after them. -/
theorem stopped_invariant_kept_unless_stale_zero_speed_witness :
    stoppedInvariant (quietTelemetry 5 1)
      ∧ (canFrames detectNothing ⟨0, 0, 0, 0, 0, 0⟩
          [frameOf CanId.CanId_SpeedData 0, frameOf CanId.CanId_DirectionData 2,
            frameOf CanId.CanId_SpeedData 0] (quietTelemetry 5 1)).speed = 0
      ∧ stoppedInvariant (canFrames detectNothing ⟨0, 0, 0, 0, 0, 0⟩
          [frameOf CanId.CanId_SpeedData 0, frameOf CanId.CanId_DirectionData 2,
            frameOf CanId.CanId_SpeedData 0] (quietTelemetry 5 1)) := by
  have h0 : stoppedInvariant (quietTelemetry 5 1) := fun h => absurd h (by decide)
  refine ⟨h0, rfl, ?_⟩
  apply (stopped_invariant_kept_unless_stale_zero_speed detectNothing ⟨0, 0, 0, 0, 0, 0⟩
    [frameOf CanId.CanId_SpeedData 0, frameOf CanId.CanId_DirectionData 2,
      frameOf CanId.CanId_SpeedData 0] (frameOf CanId.CanId_SpeedData 0)
    (quietTelemetry 5 1) h0).1.2
  rintro ⟨before, frame, after, hsplit, hid, _, hdir, hafter⟩
  rcases before with _ | ⟨b1, _ | ⟨b2, _ | ⟨b3, rest⟩⟩⟩
  · simp only [List.nil_append, List.cons.injEq] at hsplit
    obtain ⟨_, hrest⟩ := hsplit
    have := (hafter (frameOf CanId.CanId_DirectionData 2) (by rw [← hrest]; simp)).2
    exact this rfl
  · simp only [List.cons_append, List.nil_append, List.cons.injEq] at hsplit
    obtain ⟨_, hf, _⟩ := hsplit
    rw [← hf] at hid
    exact absurd hid (by decide)
  · simp only [List.cons_append, List.nil_append, List.cons.injEq] at hsplit
    obtain ⟨hb1, hb2, _, _⟩ := hsplit
    rw [← hb1, ← hb2] at hdir
    exact hdir rfl
  · simp at hsplit

/-- An ultrasound frame writes `obst` and `obstacles` only. -/
theorem canUpdate_ultrasound_frame (detect : (Fin 6 → Nat) → (Fin 6 → obstacle))
    (frame : can_frame) (s : CarParamIn) (h : frame.can_id = CanId.CanId_UltrasoundData) :
    canUpdate detect frame s =
      { s with obst := obstDetectionOf (detect (usBytes frame)),
               obstacles := detect (usBytes frame) } := by
  simp [canUpdate, h]

/-- A frame with none of the four telemetry identifiers writes nothing. -/
theorem canUpdate_unrecognized_frame (detect : (Fin 6 → Nat) → (Fin 6 → obstacle))
    (frame : can_frame) (s : CarParamIn)
    (h1 : frame.can_id ≠ CanId.CanId_UltrasoundData)
    (h2 : frame.can_id ≠ CanId.CanId_SpeedData)
    (h3 : frame.can_id ≠ CanId.CanId_DirectionData)
    (h4 : frame.can_id ≠ CanId.CanId_BatteryData) :
    canUpdate detect frame s = s := by
  simp [canUpdate, h1, h2, h3, h4]

/-- The bits of the summary byte computed from six decoded channels. -/
theorem obstDetectionOf_bits (obst : Fin 6 → obstacle) :
    (obstDetectionOf obst).testBit 2 = ((obst 0).detected || (obst 1).detected)
      ∧ (obstDetectionOf obst).testBit 1 = ((obst 2).detected || (obst 3).detected)
      ∧ (obstDetectionOf obst).testBit 0 = ((obst 4).detected || (obst 5).detected)
      ∧ obstDetectionOf obst < 8 := by
  unfold obstDetectionOf
  generalize ((obst 0).detected || (obst 1).detected) = a
  generalize ((obst 2).detected || (obst 3).detected) = b
  generalize ((obst 4).detected || (obst 5).detected) = c
  cases a <;> cases b <;> cases c <;> decide

/-- C11: for every telemetry record and every direction frame,
`canOnDataReceived` stores the direction 3 when the stored speed is 0 and the
payload byte `data[0]` otherwise; speed, battery, obstacles, obstacle summary
(and road detection) are as before. -/
theorem direction_frame_forces_stopped_code (detect : (Fin 6 → Nat) → (Fin 6 → obstacle))
    (frame : can_frame) (out : CarParamOut) (s : CarParamIn)
    (h : frame.can_id = CanId.CanId_DirectionData) :
    (canOnDataReceived detect frame out s).1 =
      { s with dir := if s.speed = 0 then 3 else frame.data 0 } := by
  simp only [canOnDataReceived]
  exact canUpdate_direction_frame detect frame s h

/-- Witness of C11: a direction frame with payload 2 gives direction 3 on a
stored speed of 0 and direction 2 on a stored speed of 5. -/
theorem direction_frame_forces_stopped_code_witness :
    (canOnDataReceived detectNothing (frameOf CanId.CanId_DirectionData 2)
        ⟨0, 0, 0, 0, 0, 0⟩ (quietTelemetry 0 1)).1.dir = 3
      ∧ (canOnDataReceived detectNothing (frameOf CanId.CanId_DirectionData 2)
        ⟨0, 0, 0, 0, 0, 0⟩ (quietTelemetry 5 1)).1.dir = 2 :=
  ⟨by rw [direction_frame_forces_stopped_code detectNothing
        (frameOf CanId.CanId_DirectionData 2) ⟨0, 0, 0, 0, 0, 0⟩ (quietTelemetry 0 1) rfl]; rfl,
   by rw [direction_frame_forces_stopped_code detectNothing
        (frameOf CanId.CanId_DirectionData 2) ⟨0, 0, 0, 0, 0, 0⟩ (quietTelemetry 5 1) rfl]; rfl⟩

/-! ## Notification encoder -/

/-- A frame leaves the stored obstacle summary at most 7 when it was at most 7:
the ultrasound branch stores a value below 8, no other branch writes it. -/
theorem canUpdate_obst_le (detect : (Fin 6 → Nat) → (Fin 6 → obstacle))
    (frame : can_frame) (s : CarParamIn) (h : s.obst ≤ 7) :
    (canUpdate detect frame s).obst ≤ 7 := by
  by_cases h1 : frame.can_id = CanId.CanId_UltrasoundData
  · rw [canUpdate_ultrasound_frame detect frame s h1]
    exact Nat.le_of_lt_succ (obstDetectionOf_bits (detect (usBytes frame))).2.2.2
  · have e : (canUpdate detect frame s).obst = s.obst := by
      unfold canUpdate
      simp only [h1, if_false]
      split <;> split <;> split <;> rfl
    rw [e]
    exact h

/-- The second notification byte as the code builds it: the summary shifted
by 2, unmasked, or-ed with the two low battery bits, reduced to 8 bits. -/
theorem notificationBuf_byte1 (out : CarParamOut) (s : CarParamIn) :
    (notificationBuf out s).2 = (((s.obst % 256) <<< 2) ||| ((s.bat % 256) &&& 0x3)) % 256 := by
  simp [notificationBuf]

/-- C12: for every frame and every command and telemetry record whose stored
obstacle summary is at most 7 (the only values `canOnDataReceived` stores),
with the fields of the record left by the frame read as 8-bit values, the
notification built at the end of `canOnDataReceived` is
byte0 = `((speed & 0x7) << 3) | ((dir & 0x3) << 1) | (mode & 1)` and
byte1 = `((obst & 0x7) << 2) | (bat & 0x3)`, each as an 8-bit value, and the
summary left by the frame is again at most 7.  byte0 needs no bound. -/
theorem notification_bytes (detect : (Fin 6 → Nat) → (Fin 6 → obstacle))
    (frame : can_frame) (out : CarParamOut) (s : CarParamIn) :
    (canOnDataReceived detect frame out s).2.1 =
        specByte0 ((canOnDataReceived detect frame out s).1.speed % 256)
          ((canOnDataReceived detect frame out s).1.dir % 256) (out.mode % 256).toNat
      ∧ (s.obst ≤ 7 →
        (canOnDataReceived detect frame out s).1.obst ≤ 7
          ∧ (canOnDataReceived detect frame out s).2.2 =
            specByte1 ((canOnDataReceived detect frame out s).1.obst % 256)
              ((canOnDataReceived detect frame out s).1.bat % 256)) := by
  refine ⟨?_, ?_⟩
  · simp [canOnDataReceived, notificationBuf, specByte0]
  · intro h
    have hle : (canUpdate detect frame s).obst ≤ 7 := canUpdate_obst_le detect frame s h
    refine ⟨hle, ?_⟩
    have hm : ((canUpdate detect frame s).obst % 256) &&& 0x7 =
        (canUpdate detect frame s).obst % 256 := by
      rw [Nat.and_pow_two_sub_one_eq_mod _ 3]
      exact Nat.mod_eq_of_lt (by omega)
    simp only [canOnDataReceived, specByte1, hm]
    exact notificationBuf_byte1 out (canUpdate detect frame s)

/-- Witness of C12: an ultrasound frame decoded to channels 0 and 5 detecting,
on a record with summary 0 and battery 2, gives the summary 0b101 and
byte1 = (0b101 << 2) | 2 = 0x16. -/
theorem notification_bytes_witness :
    (quietTelemetry 3 1).obst ≤ 7
      ∧ (canOnDataReceived (fun _ k => ⟨decide (k = 0 ∨ k = 5), 30⟩)
          (frameOf CanId.CanId_UltrasoundData 30) ⟨0, 1, 0, 0, 0, 0⟩
          { quietTelemetry 3 1 with bat := 2 }).1.obst ≤ 7
      ∧ (canOnDataReceived (fun _ k => ⟨decide (k = 0 ∨ k = 5), 30⟩)
          (frameOf CanId.CanId_UltrasoundData 30) ⟨0, 1, 0, 0, 0, 0⟩
          { quietTelemetry 3 1 with bat := 2 }).2.2 = 0x16 := by
  have h := (notification_bytes (fun _ k => ⟨decide (k = 0 ∨ k = 5), 30⟩)
    (frameOf CanId.CanId_UltrasoundData 30) ⟨0, 1, 0, 0, 0, 0⟩
    { quietTelemetry 3 1 with bat := 2 }).2 (by decide)
  refine ⟨by decide, h.1, ?_⟩
  rw [h.2]
  decide

/-- C13, as stated, fails: for speed 3, direction 1, mode Manual (0),
obstacle summary 0b101 and battery 2, the first byte built by
`canOnDataReceived` is 0x1A (0b00011010), not 0x1B. -/
theorem notification_sample_byte0_is_1A :
    (canOnDataReceived detectNothing (frameOf (CanId.unknown 0) 0)
        ⟨0, ACM_MODE_MANUAL, 0, 0, 0, 0⟩
        { quietTelemetry 3 1 with obst := 0b101, bat := 2 }).2.1 = 0x1A
      ∧ (canOnDataReceived detectNothing (frameOf (CanId.unknown 0) 0)
        ⟨0, ACM_MODE_MANUAL, 0, 0, 0, 0⟩
        { quietTelemetry 3 1 with obst := 0b101, bat := 2 }).2.1 ≠ 0x1B := by
  refine ⟨rfl, ?_⟩
  decide

/-- C13, amended: whenever a call of `canOnDataReceived` ends with speed 3,
direction 1, obstacle summary 0b101 and battery 2 stored, in mode Manual (0),
the notification built is byte0 = 0x1A (0b00011010) and byte1 = 0x16. -/
theorem notification_sample_bytes (detect : (Fin 6 → Nat) → (Fin 6 → obstacle))
    (frame : can_frame) (out : CarParamOut) (s : CarParamIn)
    (hmode : out.mode = ACM_MODE_MANUAL)
    (hspeed : (canOnDataReceived detect frame out s).1.speed = 3)
    (hdir : (canOnDataReceived detect frame out s).1.dir = 1)
    (hobst : (canOnDataReceived detect frame out s).1.obst = 0b101)
    (hbat : (canOnDataReceived detect frame out s).1.bat = 2) :
    (canOnDataReceived detect frame out s).2 = (0x1A, 0x16) := by
  simp only [canOnDataReceived] at hspeed hdir hobst hbat ⊢
  simp only [notificationBuf, hmode, hspeed, hdir, hobst, hbat, ACM_MODE_MANUAL]
  decide

/-- Witness of the amended C13: a speed frame with payload 30 on a record
holding direction 1, summary 0b101 and battery 2. -/
theorem notification_sample_bytes_witness :
    (canOnDataReceived detectNothing (frameOf CanId.CanId_SpeedData 30)
        ⟨4, ACM_MODE_MANUAL, 1, 0, 1, 0⟩
        { quietTelemetry 0 1 with obst := 0b101, bat := 2 }).2 = (0x1A, 0x16) :=
  notification_sample_bytes detectNothing (frameOf CanId.CanId_SpeedData 30)
    ⟨4, ACM_MODE_MANUAL, 1, 0, 1, 0⟩
    { quietTelemetry 0 1 with obst := 0b101, bat := 2 } rfl rfl rfl rfl rfl

/-! ## Telemetry dispatch -/

/-- C14: for every ultrasound frame and every six pairs returned by the
proximity decoder, `canOnDataReceived` stores the six pairs in `obstacles`
and a summary `obst` whose bit 2 is detected[0] or detected[1], bit 1 is
detected[2] or detected[3], bit 0 is detected[4] or detected[5], and whose
value is below 8; the other telemetry fields are as before. -/
theorem ultrasound_frame_packs_pairs (detect : (Fin 6 → Nat) → (Fin 6 → obstacle))
    (frame : can_frame) (out : CarParamOut) (s : CarParamIn)
    (h : frame.can_id = CanId.CanId_UltrasoundData) :
    (canOnDataReceived detect frame out s).1 =
        { s with obst := (canOnDataReceived detect frame out s).1.obst,
                 obstacles := detect (usBytes frame) }
      ∧ (canOnDataReceived detect frame out s).1.obst.testBit 2 =
        ((detect (usBytes frame) 0).detected || (detect (usBytes frame) 1).detected)
      ∧ (canOnDataReceived detect frame out s).1.obst.testBit 1 =
        ((detect (usBytes frame) 2).detected || (detect (usBytes frame) 3).detected)
      ∧ (canOnDataReceived detect frame out s).1.obst.testBit 0 =
        ((detect (usBytes frame) 4).detected || (detect (usBytes frame) 5).detected)
      ∧ (canOnDataReceived detect frame out s).1.obst < 8 := by
  have e : (canOnDataReceived detect frame out s).1 =
      { s with obst := obstDetectionOf (detect (usBytes frame)),
               obstacles := detect (usBytes frame) } := by
    simp only [canOnDataReceived]
    exact canUpdate_ultrasound_frame detect frame s h
  rw [e]
  exact ⟨rfl, obstDetectionOf_bits (detect (usBytes frame))⟩

/-- Witness of C14: a decoder that flags channels 0 and 5 gives the summary
0b101. -/
theorem ultrasound_frame_packs_pairs_witness :
    (canOnDataReceived (fun _ k => ⟨decide (k = 0 ∨ k = 5), 30⟩)
        (frameOf CanId.CanId_UltrasoundData 30) ⟨0, 0, 0, 0, 0, 0⟩
        (quietTelemetry 0 3)).1.obst < 8
      ∧ (canOnDataReceived (fun _ k => ⟨decide (k = 0 ∨ k = 5), 30⟩)
        (frameOf CanId.CanId_UltrasoundData 30) ⟨0, 0, 0, 0, 0, 0⟩
        (quietTelemetry 0 3)).1.obst = 0b101 :=
  ⟨(ultrasound_frame_packs_pairs (fun _ k => ⟨decide (k = 0 ∨ k = 5), 30⟩)
      (frameOf CanId.CanId_UltrasoundData 30) ⟨0, 0, 0, 0, 0, 0⟩
      (quietTelemetry 0 3) rfl).2.2.2.2,
   by decide⟩

/-- C18: a speed frame with payload byte b stores `b / 10` (integer division)
in `speed` and changes no other telemetry field; a frame whose identifier is
none of ultrasound, speed, direction, battery leaves the telemetry record as
it was, and the notification is built from that unchanged record.  The four
identifiers are distinct values of `CanId`. -/
theorem telemetry_dispatch_by_identifier (detect : (Fin 6 → Nat) → (Fin 6 → obstacle))
    (frame : can_frame) (out : CarParamOut) (s : CarParamIn) :
    (frame.can_id = CanId.CanId_SpeedData →
        (canOnDataReceived detect frame out s).1 = { s with speed := frame.data 0 / 10 })
      ∧ (frame.can_id ≠ CanId.CanId_UltrasoundData →
          frame.can_id ≠ CanId.CanId_SpeedData →
          frame.can_id ≠ CanId.CanId_DirectionData →
          frame.can_id ≠ CanId.CanId_BatteryData →
          canOnDataReceived detect frame out s = (s, notificationBuf out s)) := by
  constructor
  · intro h
    simp only [canOnDataReceived]
    exact canUpdate_speed_frame detect frame s h
  · intro h1 h2 h3 h4
    simp only [canOnDataReceived]
    rw [canUpdate_unrecognized_frame detect frame s h1 h2 h3 h4]

/-- Witness of C18: a speed frame with payload 57 on a record with direction 1
stores speed 5 and keeps direction 1; a frame with an unknown identifier
leaves speed 7 and direction 1 as they are. -/
theorem telemetry_dispatch_by_identifier_witness :
    (canOnDataReceived detectNothing (frameOf CanId.CanId_SpeedData 57)
        ⟨0, 0, 0, 0, 0, 0⟩ (quietTelemetry 0 1)).1.speed = 5
      ∧ (canOnDataReceived detectNothing (frameOf CanId.CanId_SpeedData 57)
        ⟨0, 0, 0, 0, 0, 0⟩ (quietTelemetry 0 1)).1.dir = 1
      ∧ (canOnDataReceived detectNothing (frameOf (CanId.unknown 0x123) 57)
        ⟨0, 0, 0, 0, 0, 0⟩ (quietTelemetry 7 1)).1.speed = 7 := by
  have h1 := (telemetry_dispatch_by_identifier detectNothing
    (frameOf CanId.CanId_SpeedData 57) ⟨0, 0, 0, 0, 0, 0⟩ (quietTelemetry 0 1)).1 rfl
  have h2 := (telemetry_dispatch_by_identifier detectNothing
    (frameOf (CanId.unknown 0x123) 57) ⟨0, 0, 0, 0, 0, 0⟩ (quietTelemetry 7 1)).2
    (by decide) (by decide) (by decide) (by decide)
  refine ⟨?_, ?_, ?_⟩
  · rw [h1]; rfl
  · rw [h1]; rfl
  · rw [h2]; rfl

/-! ## Command path -/

/-- The speed computed in the speed phase is 0, 1 or 2. -/
theorem speedCommand_le_two (out : CarParamOut) : speedCommand out ≤ 2 := by
  unfold speedCommand
  simp only []
  split_ifs <;> decide

/-- C15: for every command record, the direction-phase call of
`canOnTimeToSend` (static `i` equal to 0) sends the fixed code 2 when the mode
is Autonomous, whatever the stored direction and `autonomousLocked` are, and
sends the stored direction when the mode is Manual; the phase becomes 1. -/
theorem direction_phase_autonomous_override (out : CarParamOut) :
    (out.mode = ACM_MODE_AUTONOMOUS →
        canOnTimeToSend 0 out = (1, some (CanMessage.directionCmd 2)))
      ∧ (out.mode = ACM_MODE_MANUAL →
        canOnTimeToSend 0 out = (1, some (CanMessage.directionCmd out.dir))) := by
  constructor
  · intro h
    simp [canOnTimeToSend, directionCommand, h]
  · intro h
    simp [canOnTimeToSend, directionCommand, h, ACM_MODE_MANUAL, ACM_MODE_AUTONOMOUS]

/-- Witness of C15: stored direction 5, interlock set, in each mode. -/
theorem direction_phase_autonomous_override_witness :
    canOnTimeToSend 0 ⟨5, ACM_MODE_AUTONOMOUS, 0, 0, 1, 1⟩ =
        (1, some (CanMessage.directionCmd 2))
      ∧ canOnTimeToSend 0 ⟨5, ACM_MODE_MANUAL, 0, 0, 1, 1⟩ =
        (1, some (CanMessage.directionCmd 5)) :=
  ⟨(direction_phase_autonomous_override ⟨5, ACM_MODE_AUTONOMOUS, 0, 0, 1, 1⟩).1 rfl,
   (direction_phase_autonomous_override ⟨5, ACM_MODE_MANUAL, 0, 0, 1, 1⟩).2 rfl⟩

/-- C20: for every command byte with state code 0..6 decoded by
`bleOnDataReceived` into a record whose `autonomousLocked` is 0, the speed
phase of `canOnTimeToSend` then sends 1 for codes 2, 5 and 6, 2 for code 4 and
0 for codes 0, 1 and 3; and the speed sent is at most 2 for every record. -/
theorem command_path_speed (value0 : Nat) (out : CarParamOut)
    (hlock : out.autonomousLocked = 0) (h : value0 >>> 5 ≤ 6) :
    canOnTimeToSend 1 (bleOnDataReceived value0 out) =
        ((0 : Int), some (CanMessage.speedCmd (specPathSpeed (value0 >>> 5))))
      ∧ ∀ o : CarParamOut, ∃ v, canOnTimeToSend 1 o = (0, some (CanMessage.speedCmd v))
          ∧ v ≤ 2 := by
  constructor
  · unfold bleOnDataReceived
    generalize value0 >>> 5 = c at h ⊢
    interval_cases c <;>
      simp [canOnTimeToSend, speedCommand, specPathSpeed, hlock, ACM_MODE_MANUAL,
        ACM_MODE_AUTONOMOUS]
  · intro o
    exact ⟨speedCommand o, by simp [canOnTimeToSend], speedCommand_le_two o⟩

/-- Witness of C20: the byte 0x65 (state code 3, turbo without moving) sends
speed 0, and the byte 0x85 (state code 4) sends speed 2. -/
theorem command_path_speed_witness :
    canOnTimeToSend 1 (bleOnDataReceived 0x65 ⟨0, 1, 1, 0, 0, 0⟩) =
        (0, some (CanMessage.speedCmd 0))
      ∧ canOnTimeToSend 1 (bleOnDataReceived 0x85 ⟨0, 1, 1, 0, 0, 0⟩) =
        (0, some (CanMessage.speedCmd 2)) :=
  ⟨(command_path_speed 0x65 ⟨0, 1, 1, 0, 0, 0⟩ rfl (by decide)).1,
   (command_path_speed 0x85 ⟨0, 1, 1, 0, 0, 0⟩ rfl (by decide)).1⟩

/-! ## Ownership of the interlock -/

/-- The command decoder never writes `autonomousLocked`. -/
theorem bleOnDataReceived_keeps_interlock (value0 : Nat) (out : CarParamOut) :
    (bleOnDataReceived value0 out).autonomousLocked = out.autonomousLocked := by
  unfold bleOnDataReceived
  simp only []
  split <;> rfl

/-- A callback other than the governor timer leaves `autonomousLocked` and
`stopPrev` as they were. -/
theorem call_keeps_interlock (detect : (Fin 6 → Nat) → (Fin 6 → obstacle))
    (table : List (Fin 6 × UsSensorParam)) (app : Application) (cb : Callback)
    (h : cb.isAutonomousTimer = false) :
    (Application.call detect table app cb).m_carParamOut.autonomousLocked =
        app.m_carParamOut.autonomousLocked
      ∧ (Application.call detect table app cb).stopPrev = app.stopPrev := by
  cases cb with
  | bleWrite value0 => exact ⟨bleOnDataReceived_keeps_interlock value0 _, rfl⟩
  | canRead frame => exact ⟨rfl, rfl⟩
  | canSendTimer => exact ⟨rfl, rfl⟩
  | autonomousTimer => exact absurd h (by decide)
  | cameraTimer result => exact ⟨rfl, rfl⟩

/-- The governor writes `autonomousLocked` only. -/
theorem autonomousControl_writes_interlock_only (table : List (Fin 6 × UsSensorParam))
    (stopPrev : Int) (inp : CarParamIn) (out : CarParamOut) :
    (autonomousControl table stopPrev inp out).2 =
      { out with autonomousLocked :=
          (autonomousControl table stopPrev inp out).2.autonomousLocked } := by
  unfold autonomousControl
  simp only []
  split <;> rfl

/-- C16: `bleOnDataReceived` (every byte), `canOnDataReceived` (every frame)
and `canOnTimeToSend` (either phase) leave `autonomousLocked` as it was, the
last two leaving the whole command record as it was; `autonomousControl`
changes no field of the command record other than `autonomousLocked` and
leaves the telemetry record as it was. -/
theorem interlock_single_writer (detect : (Fin 6 → Nat) → (Fin 6 → obstacle))
    (table : List (Fin 6 × UsSensorParam)) (app : Application) :
    (∀ value0 : Nat,
        (Application.call detect table app (Callback.bleWrite value0)).m_carParamOut.autonomousLocked
          = app.m_carParamOut.autonomousLocked)
      ∧ (∀ frame : can_frame,
        (Application.call detect table app (Callback.canRead frame)).m_carParamOut
          = app.m_carParamOut)
      ∧ (Application.call detect table app Callback.canSendTimer).m_carParamOut
          = app.m_carParamOut
      ∧ (Application.call detect table app Callback.autonomousTimer).m_carParamOut =
          { app.m_carParamOut with autonomousLocked :=
              (Application.call detect table app
                Callback.autonomousTimer).m_carParamOut.autonomousLocked }
      ∧ (Application.call detect table app Callback.autonomousTimer).m_carParamIn
          = app.m_carParamIn := by
  refine ⟨fun value0 => bleOnDataReceived_keeps_interlock value0 _, fun _ => rfl, rfl, ?_, rfl⟩
  exact autonomousControl_writes_interlock_only table app.stopPrev app.m_carParamIn
    app.m_carParamOut

/-- C17: for every telemetry record and every two parameter tables that are
permutations of each other, `autonomousControl` computes the same stop vote:
the order of iteration, and the `break` on the first stopping sensor, do not
change the result. -/
theorem stop_vote_order_independent (t1 t2 : List (Fin 6 × UsSensorParam))
    (inp : CarParamIn) (h : t1.Perm t2) :
    stopVote t1 inp = stopVote t2 inp
      ∧ ∀ (stopPrev : Int) (out : CarParamOut),
          autonomousControl t1 stopPrev inp out = autonomousControl t2 stopPrev inp out := by
  have hspec : specStop t1 inp ↔ specStop t2 inp := by
    unfold specStop
    constructor
    · rintro (⟨e, he, hv⟩ | hr)
      · exact Or.inl ⟨e, h.mem_iff.1 he, hv⟩
      · exact Or.inr hr
    · rintro (⟨e, he, hv⟩ | hr)
      · exact Or.inl ⟨e, h.mem_iff.2 he, hv⟩
      · exact Or.inr hr
  have hv : stopVote t1 inp = stopVote t2 inp := by
    rcases stopVote_zero_or_one t1 inp with a | a
    · rcases stopVote_zero_or_one t2 inp with b | b
      · rw [a, b]
      · have := (stopVote_eq_one_iff t1 inp).2 (hspec.2 ((stopVote_eq_one_iff t2 inp).1 b))
        rw [a] at this
        exact absurd this (by decide)
    · rw [a, (stopVote_eq_one_iff t2 inp).2 (hspec.1 ((stopVote_eq_one_iff t1 inp).1 a))]
  refine ⟨hv, fun stopPrev out => ?_⟩
  unfold autonomousControl
  rw [hv]

/-- Witness of C17: the sample table and the same table iterated backwards. -/
theorem stop_vote_order_independent_witness :
    stopVote sampleTable.reverse (sampleTelemetry 90 RoadDetection_t.clear) =
      stopVote sampleTable (sampleTelemetry 90 RoadDetection_t.clear) :=
  (stop_vote_order_independent sampleTable.reverse sampleTable
    (sampleTelemetry 90 RoadDetection_t.clear) (List.reverse_perm sampleTable)).1

/-! ## The interlock follows the latest vote -/

/-- Running two lists of callbacks one after the other. -/
theorem run_append (detect : (Fin 6 → Nat) → (Fin 6 → obstacle))
    (table : List (Fin 6 × UsSensorParam)) (pre post : List Callback) :
    ∀ app : Application,
      Application.run detect table app (pre ++ post) =
        Application.run detect table (Application.run detect table app pre) post := by
  induction pre with
  | nil => intro app; rfl
  | cons cb rest ih =>
    intro app
    simp only [List.cons_append, Application.run]
    exact ih _

/-- After a governor cycle the retained vote is the vote just computed, and
the interlock equals it when it equalled `stopPrev` before the cycle. -/
theorem governor_cycle_tracks (detect : (Fin 6 → Nat) → (Fin 6 → obstacle))
    (table : List (Fin 6 × UsSensorParam)) (app : Application) :
    (Application.call detect table app Callback.autonomousTimer).stopPrev =
        stopVote table app.m_carParamIn
      ∧ (app.m_carParamOut.autonomousLocked = app.stopPrev →
        (Application.call detect table app Callback.autonomousTimer).m_carParamOut.autonomousLocked
          = stopVote table app.m_carParamIn) := by
  refine ⟨rfl, ?_⟩
  intro h
  simp only [Application.call, autonomousControl]
  by_cases hv : stopVote table app.m_carParamIn = app.stopPrev
  · simp only [hv, ne_eq, not_true_eq_false, if_false]
    exact h
  · simp only [ne_eq, hv, not_false_eq_true, if_true]

/-- Every callback keeps the interlock equal to the retained vote. -/
theorem call_keeps_tracking (detect : (Fin 6 → Nat) → (Fin 6 → obstacle))
    (table : List (Fin 6 × UsSensorParam)) (app : Application) (cb : Callback)
    (h : app.m_carParamOut.autonomousLocked = app.stopPrev) :
    (Application.call detect table app cb).m_carParamOut.autonomousLocked =
      (Application.call detect table app cb).stopPrev := by
  by_cases hcb : cb.isAutonomousTimer = false
  · obtain ⟨e1, e2⟩ := call_keeps_interlock detect table app cb hcb
    rw [e1, e2]
    exact h
  · have : cb = Callback.autonomousTimer := by
      cases cb <;> first | rfl | exact absurd rfl hcb
    subst this
    obtain ⟨e1, e2⟩ := governor_cycle_tracks detect table app
    rw [e1, e2 h]

/-- Every list of callbacks keeps the interlock equal to the retained vote. -/
theorem run_keeps_tracking (detect : (Fin 6 → Nat) → (Fin 6 → obstacle))
    (table : List (Fin 6 × UsSensorParam)) (cbs : List Callback) :
    ∀ app : Application, app.m_carParamOut.autonomousLocked = app.stopPrev →
      (Application.run detect table app cbs).m_carParamOut.autonomousLocked =
        (Application.run detect table app cbs).stopPrev := by
  induction cbs with
  | nil => intro app h; exact h
  | cons cb rest ih =>
    intro app h
    exact ih _ (call_keeps_tracking detect table app cb h)

/-- A list of callbacks without the governor timer leaves the interlock as it
was. -/
theorem run_keeps_interlock (detect : (Fin 6 → Nat) → (Fin 6 → obstacle))
    (table : List (Fin 6 × UsSensorParam)) (cbs : List Callback) :
    ∀ app : Application, (∀ cb ∈ cbs, cb.isAutonomousTimer = false) →
      (Application.run detect table app cbs).m_carParamOut.autonomousLocked =
        app.m_carParamOut.autonomousLocked := by
  induction cbs with
  | nil => intro app _; rfl
  | cons cb rest ih =>
    intro app h
    simp only [Application.run]
    rw [ih _ (fun c hc => h c (List.mem_cons_of_mem _ hc))]
    exact (call_keeps_interlock detect table app cb (h cb (List.mem_cons_self _ _))).1

/-- C19: if `autonomousLocked` equals `stopPrev` before a governor cycle, it
equals the vote just computed after it; hence from `stopPrev` = 0 and
`autonomousLocked` = 0, after every list of callbacks `autonomousLocked`
equals the retained vote, and it equals the vote computed by the last governor
cycle of the list on the telemetry of that moment.  When the vote of a cycle
equals `stopPrev`, `autonomousLocked` keeps the value it had, also a value
that differs from the vote. -/
theorem interlock_tracks_latest_vote (detect : (Fin 6 → Nat) → (Fin 6 → obstacle))
    (table : List (Fin 6 × UsSensorParam)) (app : Application) :
    (app.m_carParamOut.autonomousLocked = app.stopPrev →
        (Application.call detect table app Callback.autonomousTimer).m_carParamOut.autonomousLocked
          = stopVote table app.m_carParamIn)
      ∧ (app.stopPrev = 0 → app.m_carParamOut.autonomousLocked = 0 →
          ∀ cbs : List Callback,
            (Application.run detect table app cbs).m_carParamOut.autonomousLocked =
              (Application.run detect table app cbs).stopPrev)
      ∧ (app.stopPrev = 0 → app.m_carParamOut.autonomousLocked = 0 →
          ∀ pre post : List Callback, (∀ cb ∈ post, cb.isAutonomousTimer = false) →
            (Application.run detect table app
                (pre ++ Callback.autonomousTimer :: post)).m_carParamOut.autonomousLocked =
              stopVote table (Application.run detect table app pre).m_carParamIn)
      ∧ (stopVote table app.m_carParamIn = app.stopPrev →
        (Application.call detect table app Callback.autonomousTimer).m_carParamOut.autonomousLocked
          = app.m_carParamOut.autonomousLocked) := by
  refine ⟨(governor_cycle_tracks detect table app).2, ?_, ?_, ?_⟩
  · intro h0 hl cbs
    exact run_keeps_tracking detect table cbs app (by rw [hl, h0])
  · intro h0 hl pre post hpost
    rw [run_append]
    simp only [Application.run]
    rw [run_keeps_interlock detect table post _ hpost]
    exact (governor_cycle_tracks detect table _).2
      (run_keeps_tracking detect table pre app (by rw [hl, h0]))
  · intro hv
    simp [Application.call, autonomousControl, hv]

/-- Witness of C19: from the initial statics and an unlocked record, a command
write, a critical camera result, a governor cycle and a further command write
leave the interlock at 1, the vote of that cycle; and a record locked at 1
with `stopPrev` 0 stays at 1 through a cycle that votes 0. -/
theorem interlock_tracks_latest_vote_witness :
    (Application.run detectNothing sampleTable
        ⟨⟨0, 0, 0, 0, 0, 0⟩, quietTelemetry 0 3, 0, 0⟩
        ([Callback.bleWrite 0x45, Callback.cameraTimer RoadDetection_t.leftcrit]
          ++ Callback.autonomousTimer :: [Callback.bleWrite 0x85])).m_carParamOut.autonomousLocked
        = 1
      ∧ (Application.call detectNothing [] ⟨⟨0, 0, 0, 0, 0, 1⟩, quietTelemetry 0 3, 0, 0⟩
          Callback.autonomousTimer).m_carParamOut.autonomousLocked = 1 := by
  constructor
  · rw [(interlock_tracks_latest_vote detectNothing sampleTable
      ⟨⟨0, 0, 0, 0, 0, 0⟩, quietTelemetry 0 3, 0, 0⟩).2.2.1 rfl rfl
      [Callback.bleWrite 0x45, Callback.cameraTimer RoadDetection_t.leftcrit]
      [Callback.bleWrite 0x85] (by decide)]
    exact (stopVote_eq_one_iff _ _).2 (Or.inr (Or.inl rfl))
  · exact (interlock_tracks_latest_vote detectNothing []
      ⟨⟨0, 0, 0, 0, 0, 1⟩, quietTelemetry 0 3, 0, 0⟩).2.2.2 rfl

end acm
